import Mathlib

/-
  A verification development for the EpubSplit plugin support layer
  (common_utils.py): icon resolution with skin-folder / zip-resource /
  host-cache fallback, dialog geometry persistence, read-only and
  checkable table items, library UUID lookup, and the preferences
  viewer clear-settings operation.

  Shallow embedding conventions:
  - Python strings are Lean String; raw image bytes are List Nat.
  - Python truthiness of a string is the test "nonempty".
  - The Qt pixmap and icon objects are modelled by which source the
    image was loaded from, since the code only decides where to load.
  - The filesystem, the host icon cache I(), and the preference stores
    are explicit parameters of an environment record.
  - Exceptions of an attribute lookup are modelled by Except.
  - We model the posix branch of the code (iswindows is False), so
    os.path.normpath is never applied.
-/

/-- Raw image data, as found in the plugin zip resource map. -/
abbrev ImageBytes := List Nat

/-- A loaded pixmap, identified by where the bytes came from:
a file on disk (QPixmap.load) or in-memory data (QPixmap.loadFromData). -/
inductive Pixmap where
  | fromFile (path : String)
  | fromData (data : ImageBytes)
deriving DecidableEq, Repr

/-- A QIcon as produced by get_icon: the empty icon, an icon loaded from
a host icon-cache path, or an icon wrapping a pixmap. -/
inductive Icon where
  | empty
  | fromCache (path : String)
  | fromPixmap (px : Pixmap)
deriving DecidableEq, Repr

/-- The ambient state read by the icon functions: the two module-level
globals set by set_plugin_icon_resources, the calibre config_dir, the
filesystem (os.path.exists), and the host icon cache path function I(). -/
structure IconEnv where
  plugin_name : Option String
  plugin_icon_resources : List (String × ImageBytes)
  config_dir : String
  fs_exists : String → Bool
  host_icon_path : String → String

/-- str.startswith, computed on the character lists so that the kernel
can evaluate it. -/
def str_starts_with (s pre : String) : Bool :=
  pre.data.isPrefixOf s.data

/-- str.endswith, computed on the character lists. -/
def str_ends_with (s suf : String) : Bool :=
  suf.data.isSuffixOf s.data

/-- One fuelled pass of str.replace over a character list: replace the
leftmost, non-overlapping occurrences of pat, scanning left to right. -/
def replace_chars (pat repl : List Char) : Nat → List Char → List Char
  | _, [] => []
  | 0, s => s
  | fuel + 1, c :: rest =>
    if pat.isPrefixOf (c :: rest) then
      repl ++ replace_chars pat repl fuel ((c :: rest).drop pat.length)
    else
      c :: replace_chars pat repl fuel rest

/-- str.replace for a nonempty pattern (the code only ever replaces the
literal "images/"): replace every non-overlapping occurrence, left to
right. The character count is enough fuel since a nonempty pattern
consumes at least one character per step. -/
def str_replace (s pat repl : String) : String :=
  if pat = "" then s
  else String.mk (replace_chars pat.data repl.data s.data.length s.data)

/-- os.path.join for two components, posix semantics: an absolute second
component replaces the first. -/
def path_join (a b : String) : String :=
  if str_starts_with b "/" then b
  else if a = "" then b
  else if str_ends_with a "/" then a ++ b
  else a ++ "/" ++ b

/-- get_local_images_dir: the per-user resources/images folder, with an
optional subfolder appended when the argument is truthy. -/
def get_local_images_dir (config_dir : String) (subfolder : Option String) : String :=
  let images_dir := path_join config_dir "resources/images"
  match subfolder with
  | some s => if s = "" then images_dir else path_join images_dir s
  | none => images_dir

/-- The on-disk path probed by get_pixmap for a skin override image:
the local images dir for the plugin, joined with the icon name with
every occurrence of the image namespace removed (str.replace). -/
def skin_image_path (config_dir pn icon_name : String) : String :=
  path_join (get_local_images_dir config_dir (some pn))
    (str_replace icon_name "images/" "")

/-- get_pixmap: a name outside the images/ namespace loads from the host
cache; otherwise probe the skin folder on disk (only when plugin_name is
truthy), then the zip resource map, else None. -/
def get_pixmap (env : IconEnv) (icon_name : String) : Option Pixmap :=
  if ¬ str_starts_with icon_name "images/" then
    some (Pixmap.fromFile (env.host_icon_path icon_name))
  else
    let skin : Option Pixmap :=
      match env.plugin_name with
      | some pn =>
        if pn = "" then none
        else
          let p := skin_image_path env.config_dir pn icon_name
          if env.fs_exists p then some (Pixmap.fromFile p) else none
      | none => none
    match skin with
    | some px => some px
    | none =>
      match env.plugin_icon_resources.lookup icon_name with
      | some data => some (Pixmap.fromData data)
      | none => none

/-- get_icon: empty icon for a falsy name; otherwise wrap the pixmap
when get_pixmap found one, else fall back to the host cache icon. -/
def get_icon (env : IconEnv) (icon_name : String) : Icon :=
  if icon_name = "" then Icon.empty
  else
    match get_pixmap env icon_name with
    | none => Icon.fromCache (env.host_icon_path icon_name)
    | some px => Icon.fromPixmap px

/-- A database handle whose library_id attribute access may raise. -/
structure CalibreDb where
  library_id : Except String String

/-- get_library_uuid: return db.library_id, or the empty string when the
attribute access raises. -/
def get_library_uuid (db : CalibreDb) : String :=
  match db.library_id with
  | Except.ok u => u
  | Except.error _ => ""

/-- A window size (QSize), as produced by sizeHint and by resize. -/
structure QtSize where
  w : Int
  h : Int
deriving DecidableEq, Repr

/-- A window geometry: position plus size. saveGeometry serializes this
record and restoreGeometry restores it; the serialization being an
opaque faithful blob, we model the blob by the geometry itself. -/
structure QtGeometry where
  x : Int
  y : Int
  size : QtSize
deriving DecidableEq, Repr

/-- The global gprefs store as read and written by SizePersistedDialog:
geometry blobs keyed by the unique preference name. -/
abbrev GPrefs := String → Option QtGeometry

/-- The observable state of a SizePersistedDialog: its key, the blob
read from gprefs at construction, its current window geometry and its
natural preferred size (sizeHint). -/
structure SizePersistedDialog where
  unique_pref_name : String
  geom : Option QtGeometry
  geometry : QtGeometry
  size_hint : QtSize

/-- SizePersistedDialog.__init__: record the key and read the saved
blob with gprefs.get(unique_pref_name, None). -/
def mk_size_persisted_dialog (gprefs : GPrefs) (name : String)
    (g : QtGeometry) (hint : QtSize) : SizePersistedDialog :=
  { unique_pref_name := name
    geom := gprefs name
    geometry := g
    size_hint := hint }

/-- resize_dialog: with no saved blob, resize to sizeHint (size only);
else restoreGeometry of the saved blob. -/
def resize_dialog (d : SizePersistedDialog) : SizePersistedDialog :=
  match d.geom with
  | none => { d with geometry := { d.geometry with size := d.size_hint } }
  | some g => { d with geometry := g }

/-- dialog_closing: serialize the current geometry and write it to
gprefs under the unique preference name. -/
def dialog_closing (d : SizePersistedDialog) (gprefs : GPrefs) : GPrefs :=
  fun k => if k = d.unique_pref_name then some d.geometry else gprefs k

/-- Qt item flags as independent bits; only the bits this code touches. -/
structure ItemFlags where
  selectable : Bool
  enabled : Bool
  editable : Bool
  user_checkable : Bool
  tristate : Bool
deriving DecidableEq, Repr

/-- Qt.CheckState. -/
inductive CheckState where
  | unchecked
  | partiallyChecked
  | checked
deriving DecidableEq, Repr

/-- A read-only table cell: display text plus item flags. -/
structure ReadOnlyTableWidgetItem where
  text : String
  flags : ItemFlags
deriving DecidableEq, Repr

/-- ReadOnlyTableWidgetItem.__init__: a None text becomes the empty
string, and the flags are set to exactly ItemIsSelectable|ItemIsEnabled. -/
def mk_read_only_item (text : Option String) : ReadOnlyTableWidgetItem :=
  { text := match text with | none => "" | some t => t
    flags := { selectable := true, enabled := true, editable := false
               user_checkable := false, tristate := false } }

/-- A checkable table cell: display text, item flags and check state. -/
structure CheckableTableWidgetItem where
  text : String
  flags : ItemFlags
  check_state : CheckState
deriving DecidableEq, Repr

/-- CheckableTableWidgetItem.__init__ with checked in {True, False, None}
(default False) and is_tristate (default False): flags are
Selectable|UserCheckable|Enabled, plus Tristate when is_tristate; the
state is Checked for a truthy checked, PartiallyChecked for tristate
with checked None, else Unchecked. -/
def mk_checkable_item (checked : Option Bool) (is_tristate : Bool) :
    CheckableTableWidgetItem :=
  let base : ItemFlags :=
    { selectable := true, enabled := true, editable := false
      user_checkable := true, tristate := false }
  { text := ""
    flags := if is_tristate then { base with tristate := true } else base
    check_state :=
      if checked = some true then CheckState.checked
      else if is_tristate ∧ checked = none then CheckState.partiallyChecked
      else CheckState.unchecked }

/-- get_boolean_value: None for a partially checked box, else whether
the state is Checked. -/
def get_boolean_value (it : CheckableTableWidgetItem) : Option Bool :=
  if it.check_state = CheckState.partiallyChecked then none
  else some (it.check_state = CheckState.checked)

/-- PrefsViewerDialog._get_ns_prefix: the namespace marker string. -/
def ns_marker (ns : String) : String := "namespaced:" ++ ns ++ ":"

/-- Deletion of one key from the db.prefs store (del self.db.prefs[k]);
the store is modelled as an association list with distinct keys, and
deletion removes every entry carrying the key. -/
def del_pref {V : Type} (prefs : List (String × V)) (k : String) :
    List (String × V) :=
  prefs.filter (fun kv => kv.1 != k)

/-- PrefsViewerDialog._clear_settings, with the confirm() answer as a
parameter: when declined, return with the store untouched; else collect
the keys starting with the namespace marker and delete each of them. -/
def clear_settings {V : Type} (confirmed : Bool) (ns : String)
    (prefs : List (String × V)) : List (String × V) :=
  if ¬ confirmed then prefs
  else
    let keys := (prefs.map Prod.fst).filter
      (fun k => str_starts_with k (ns_marker ns))
    keys.foldl del_pref prefs

/-- A concrete environment used by the witnesses: a set plugin name, one
bundled resource, and a filesystem holding one skin override image. -/
def demo_env : IconEnv :=
  { plugin_name := some "EpubSplit"
    plugin_icon_resources := [("images/plugin.png", [1, 2, 3])]
    config_dir := "/home/user/.config/calibre"
    fs_exists := fun p =>
      p == "/home/user/.config/calibre/resources/images/EpubSplit/skinned.png"
    host_icon_path := fun n => "/opt/calibre/resources/images/" ++ n }

/-- C3: a checkable item built with checked=True reads back as true,
a tristate item built with checked=None reads back as None, and an item
built with the default arguments reads back as false. -/
theorem checkable_item_boolean_values :
    get_boolean_value (mk_checkable_item (some true) false) = some true
    ∧ get_boolean_value (mk_checkable_item none true) = none
    ∧ get_boolean_value (mk_checkable_item (some false) false) = some false := by
  decide

/-- C10: a read-only table item built from a None text stores the empty
string, and every read-only table item carries exactly the selectable
and enabled flags, so the cell is neither editable nor checkable. -/
theorem read_only_item_spec :
    (mk_read_only_item none).text = ""
    ∧ ∀ t : Option String, (mk_read_only_item t).flags =
        { selectable := true, enabled := true, editable := false
          user_checkable := false, tristate := false } :=
  ⟨rfl, fun t => by cases t <;> rfl⟩

/-- C7: get_library_uuid returns the library_id of the database when
the attribute lookup succeeds, and the empty string when it raises. -/
theorem get_library_uuid_spec (db : CalibreDb) :
    (∀ u, db.library_id = Except.ok u → get_library_uuid db = u)
    ∧ (∀ e, db.library_id = Except.error e → get_library_uuid db = "") := by
  constructor <;> intro v h <;> simp [get_library_uuid, h]

/-- Witness for C7 at a concrete database handle. -/
theorem get_library_uuid_spec_witness :
    get_library_uuid { library_id := Except.ok "lib-uuid-1" } = "lib-uuid-1" :=
  (get_library_uuid_spec { library_id := Except.ok "lib-uuid-1" }).1
    "lib-uuid-1" rfl

/-- C9: when the confirmation prompt is declined, clear_settings returns
with the preference store untouched. -/
theorem clear_settings_declined_noop {V : Type} (ns : String)
    (prefs : List (String × V)) : clear_settings false ns prefs = prefs := by
  simp [clear_settings]

/-- C8: get_icon always produces an icon: the empty icon for a falsy
name, and the host cache default icon when no pixmap is found. -/
theorem get_icon_never_fails (env : IconEnv) (icon_name : String) :
    (icon_name = "" → get_icon env icon_name = Icon.empty)
    ∧ (icon_name ≠ "" → get_pixmap env icon_name = none →
        get_icon env icon_name
          = Icon.fromCache (env.host_icon_path icon_name)) := by
  constructor
  · intro h; simp [get_icon, h]
  · intro h hp; simp [get_icon, h, hp]

/-- Witness for C8 at the empty name and at a name found nowhere. -/
theorem get_icon_never_fails_witness :
    get_icon demo_env "" = Icon.empty
    ∧ get_icon demo_env "images/missing.png"
        = Icon.fromCache (demo_env.host_icon_path "images/missing.png") :=
  ⟨(get_icon_never_fails demo_env "").1 rfl,
   (get_icon_never_fails demo_env "images/missing.png").2
     (by decide) (by decide)⟩

/-- C6: a name outside the images/ namespace is loaded straight from
the host icon cache, and the result is independent of the filesystem,
the plugin name and the resource map. -/
theorem get_pixmap_host_cache_only (env : IconEnv) (icon_name : String)
    (h : str_starts_with icon_name "images/" = false) :
    get_pixmap env icon_name
      = some (Pixmap.fromFile (env.host_icon_path icon_name))
    ∧ ∀ env2 : IconEnv, env2.host_icon_path = env.host_icon_path →
        get_pixmap env2 icon_name = get_pixmap env icon_name := by
  constructor
  · simp [get_pixmap, h]
  · intro env2 h2; simp [get_pixmap, h, h2]

/-- Witness for C6 at a host-cache icon name. -/
theorem get_pixmap_host_cache_only_witness :
    get_pixmap demo_env "edit-copy.png"
      = some (Pixmap.fromFile (demo_env.host_icon_path "edit-copy.png")) :=
  (get_pixmap_host_cache_only demo_env "edit-copy.png" (by decide)).1

/-- C5: a name inside the images/ namespace that exists neither in the
skin folder on disk nor in the zip resource map makes get_pixmap signal
absence by returning None. -/
theorem get_pixmap_absent_none (env : IconEnv) (icon_name : String)
    (h0 : str_starts_with icon_name "images/" = true)
    (hskin : ∀ pn, env.plugin_name = some pn → pn ≠ "" →
        env.fs_exists (skin_image_path env.config_dir pn icon_name) = false)
    (hres : env.plugin_icon_resources.lookup icon_name = none) :
    get_pixmap env icon_name = none := by
  unfold get_pixmap
  cases hpn : env.plugin_name with
  | none => simp [h0, hres]
  | some pn =>
    by_cases hempty : pn = ""
    · simp [h0, hempty, hres]
    · simp [h0, hempty, hskin pn hpn hempty, hres]

/-- Witness for C5: the demo environment holds no image for this name. -/
theorem get_pixmap_absent_none_witness :
    get_pixmap demo_env "images/missing.png" = none :=
  get_pixmap_absent_none demo_env "images/missing.png" (by decide)
    (fun pn hpn hne => by
      simp only [demo_env] at hpn
      injection hpn with h
      subst h
      decide)
    (by decide)

/-- C1: for a name inside the images/ namespace, with the plugin name
set, get_icon yields the skin-folder image when that file exists, else
the bundled resource image, else the host default icon, in that order. -/
theorem get_icon_priority_order (env : IconEnv) (icon_name pn : String)
    (h0 : str_starts_with icon_name "images/" = true)
    (hpn : env.plugin_name = some pn) (hpn2 : pn ≠ "") :
    (env.fs_exists (skin_image_path env.config_dir pn icon_name) = true →
      get_icon env icon_name = Icon.fromPixmap
        (Pixmap.fromFile (skin_image_path env.config_dir pn icon_name)))
    ∧ (∀ d, env.fs_exists (skin_image_path env.config_dir pn icon_name) = false →
        env.plugin_icon_resources.lookup icon_name = some d →
        get_icon env icon_name = Icon.fromPixmap (Pixmap.fromData d))
    ∧ (env.fs_exists (skin_image_path env.config_dir pn icon_name) = false →
        env.plugin_icon_resources.lookup icon_name = none →
        get_icon env icon_name
          = Icon.fromCache (env.host_icon_path icon_name)) := by
  have hne : icon_name ≠ "" := by
    intro h
    rw [h] at h0
    exact absurd h0 (by decide)
  refine ⟨?_, ?_, ?_⟩
  · intro hfs
    simp [get_icon, hne, get_pixmap, h0, hpn, hpn2, hfs]
  · intro d hfs hd
    simp [get_icon, hne, get_pixmap, h0, hpn, hpn2, hfs, hd]
  · intro hfs hd
    simp [get_icon, hne, get_pixmap, h0, hpn, hpn2, hfs, hd]

/-- Witness for C1: the demo environment carries a skin override for
this name, and get_icon picks it. -/
theorem get_icon_priority_order_witness :
    get_icon demo_env "images/skinned.png" = Icon.fromPixmap
      (Pixmap.fromFile
        (skin_image_path demo_env.config_dir "EpubSplit" "images/skinned.png")) :=
  (get_icon_priority_order demo_env "images/skinned.png" "EpubSplit"
    (by decide) rfl (by decide)).1 (by decide)

/-- A dialog state used by the round-trip witness. -/
def demo_prior_dialog : SizePersistedDialog :=
  { unique_pref_name := "epubsplit chapters dialog"
    geom := none
    geometry := { x := 10, y := 20, size := { w := 300, h := 200 } }
    size_hint := { w := 640, h := 480 } }

/-- A preference store holding no geometry blob. -/
def empty_gprefs : GPrefs := fun _ => none

/-- C2: closing a dialog writes its geometry under its key, a new
dialog on the same key restores exactly that geometry via
resize_dialog, and a key never written sizes the dialog to sizeHint. -/
theorem size_persisted_round_trip (gprefs : GPrefs)
    (d : SizePersistedDialog) (g2 : QtGeometry) (hint2 : QtSize)
    (k : String) (g : QtGeometry) (hint : QtSize) :
    (resize_dialog (mk_size_persisted_dialog (dialog_closing d gprefs)
        d.unique_pref_name g2 hint2)).geometry = d.geometry
    ∧ (gprefs k = none →
        (resize_dialog (mk_size_persisted_dialog gprefs k g hint)).geometry
          = { g with size := hint }) := by
  constructor
  · simp [resize_dialog, mk_size_persisted_dialog, dialog_closing]
  · intro h
    simp [resize_dialog, mk_size_persisted_dialog, h]

/-- Witness for C2: a concrete close-then-reopen round trip, and a
concrete unseen key falling back to sizeHint. -/
theorem size_persisted_round_trip_witness :
    (resize_dialog (mk_size_persisted_dialog
        (dialog_closing demo_prior_dialog empty_gprefs)
        demo_prior_dialog.unique_pref_name
        { x := 0, y := 0, size := { w := 1, h := 1 } }
        { w := 2, h := 2 })).geometry = demo_prior_dialog.geometry
    ∧ (resize_dialog (mk_size_persisted_dialog empty_gprefs "never seen"
        { x := 5, y := 6, size := { w := 1, h := 1 } }
        { w := 2, h := 2 })).geometry
      = { x := 5, y := 6, size := { w := 2, h := 2 } } :=
  ⟨(size_persisted_round_trip empty_gprefs demo_prior_dialog
      { x := 0, y := 0, size := { w := 1, h := 1 } } { w := 2, h := 2 }
      "never seen" { x := 5, y := 6, size := { w := 1, h := 1 } }
      { w := 2, h := 2 }).1,
   (size_persisted_round_trip empty_gprefs demo_prior_dialog
      { x := 0, y := 0, size := { w := 1, h := 1 } } { w := 2, h := 2 }
      "never seen" { x := 5, y := 6, size := { w := 1, h := 1 } }
      { w := 2, h := 2 }).2 rfl⟩

/-- Folding single-key deletion over a list of keys removes exactly the
entries whose key occurs in that list. -/
theorem foldl_del_pref {V : Type} (ks : List String)
    (l : List (String × V)) :
    ks.foldl del_pref l = l.filter (fun kv => !(ks.contains kv.1)) := by
  induction ks generalizing l with
  | nil => simp [del_pref]
  | cons k ks ih =>
    simp only [List.foldl_cons, ih, del_pref, List.filter_filter]
    apply List.filter_congr
    intro kv hkv
    by_cases h : kv.1 = k <;> simp [h, List.contains_cons]

/-- Filtering out the keys that were themselves collected from the list
by a predicate is filtering by the negated predicate. -/
theorem filter_not_selected_keys {V : Type} (p : String → Bool)
    (l : List (String × V)) :
    l.filter (fun kv => !(((l.map Prod.fst).filter p).contains kv.1))
      = l.filter (fun kv => !(p kv.1)) := by
  apply List.filter_congr
  intro kv hkv
  have hmem : kv.1 ∈ l.map Prod.fst := List.mem_map_of_mem Prod.fst hkv
  by_cases hp : p kv.1 = true
  · have : kv.1 ∈ (l.map Prod.fst).filter p :=
      List.mem_filter.mpr ⟨hmem, hp⟩
    simp [hp, List.contains, List.elem_iff, this]
  · have : kv.1 ∉ (l.map Prod.fst).filter p := by
      intro hin
      exact hp (List.mem_filter.mp hin).2
    simp [hp, List.contains, List.elem_iff, this]

/-- C4: after confirmation, clear_settings removes exactly the entries
whose key starts with the namespace marker and leaves every other entry
unchanged, in order. -/
theorem clear_settings_filters_ns_keys {V : Type} (ns : String)
    (prefs : List (String × V)) :
    clear_settings true ns prefs
      = prefs.filter (fun kv => !(str_starts_with kv.1 (ns_marker ns))) := by
  simp only [clear_settings]
  rw [if_neg (by decide)]
  rw [foldl_del_pref, filter_not_selected_keys]
